import Mathlib

/-!
Verification development for the woo-express proxy server (`src/server.js`).

The file embeds, as pure Lean functions, the two pieces of the server that
carry real logic:

* `parseStockInfo` — the stock-quantity normalizer (server.js lines 38–55);
* the `POST /api/shipping/calculate` handler (server.js lines 292–434):
  zone resolution with per-zone error boundary and fallback chain, the
  per-method cost/title/description computation, and the surrounding
  pipeline with its error responses.

Modelling conventions:

* JavaScript numbers are modelled as `Option ℚ`, with `none` standing for
  `NaN`; arithmetic that would produce `NaN` in JS produces `none` here.
  Nonfinite literals (`Infinity`) and nondecimal literals (`0x…`) are outside
  the model; no claim depends on them.
* `undefined`/absent object fields are modelled with `Option`.
* `parseFloat` and `Number(…)` string coercion are modelled on decimal
  literals (sign, digits, fraction, exponent) following ECMAScript semantics:
  `parseFloat` parses the longest valid prefix after leading whitespace and
  yields `NaN` if there is none; `Number` requires the whole trimmed string
  to be a literal and maps the empty trimmed string to `0`.
* Upstream HTTP calls are passed in as explicit collaborator functions
  returning `Except`; an `Except.error` models a rejected request.
-/

/-- A single JS value as it can appear in the loosely typed product records
(`stock_quantity`, `stock_status`). `num none` models `NaN`. -/
inductive JSVal where
  | undef
  | null
  | num (value : Option ℚ)
  | str (s : String)
  | bool (b : Bool)
deriving DecidableEq

/-- The fields of a product record touched by `parseStockInfo`. -/
structure Product where
  stock_quantity : JSVal
  stock_status : JSVal
deriving DecidableEq

/-- Argument to `parseStockInfo`: the function's own guard `if (!product)`
distinguishes `undefined`/`null` from an actual record. -/
inductive ProductInput where
  | undef
  | null
  | obj (p : Product)
deriving DecidableEq

/-- A `{type, code}` entry of a zone's location list. -/
structure Location where
  type : String
  code : String
deriving DecidableEq

/-- A shipping zone as returned by `GET /shipping/zones`, together with the
locations its own `GET /shipping/zones/{id}/locations` call would deliver. -/
structure Zone where
  id : Nat
  name : String
  locations : List Location
deriving DecidableEq

/-- A `{value}` wrapper inside a method's `settings` mapping. -/
structure Setting where
  value : String
deriving DecidableEq

/-- The keys of the dynamic `settings` mapping that the handler reads;
each is optional (absent key means no override). -/
structure Settings where
  cost : Option Setting
  min_amount : Option Setting
  title : Option Setting
  description : Option Setting
deriving DecidableEq

/-- A shipping method as returned by `GET /shipping/zones/{id}/methods`. -/
structure Method where
  method_id : String
  method_title : Option String
  title : Option String
  instance_id : Nat
  enabled : Bool
  settings : Option Settings
  method_description : Option String
deriving DecidableEq

/-- One entry of the handler's `shippingOptions` output array.
`cost = none` models a `NaN` cost. -/
structure ShippingOption where
  id : String
  instance_id : Nat
  title : String
  cost : Option ℚ
  description : String
  enabled : Bool
deriving DecidableEq

/-- A cart item from the request body. -/
structure CartItem where
  price : ℚ
  quantity : ℚ
deriving DecidableEq

/-- The `shipping_address` part of the request body: it can be absent
altogether, or present with an optional `country` field. -/
inductive Addr where
  | missing
  | mk (country : Option String)
deriving DecidableEq

/-- The ways the calculate-shipping pipeline can abort. -/
inductive CalcError where
  | noZones
  | upstream (message : String)
  | cartTypeError
deriving DecidableEq

/-- The HTTP response of the calculate-shipping endpoint. -/
inductive HttpResponse where
  | success (options : List ShippingOption) (zone : Zone)
  | failure (status : Nat) (error : String) (message : Option String)
deriving DecidableEq

/-! ## JS numeric string parsing -/

/-- Digits to a natural number. -/
def natOfDigits (ds : List Char) : Nat :=
  ds.foldl (fun n c => 10 * n + (c.toNat - 48)) 0

/-- Value of a fraction-digit block: `natOfDigits / 10 ^ length`. -/
def fracVal (fp : List Char) : ℚ :=
  (natOfDigits fp : ℚ) / (10 : ℚ) ^ fp.length

/-- Parse an unsigned decimal mantissa (`digits`, `digits.digits?`, or
`.digits`) from the front of a character list, returning its value and the
unconsumed remainder; `none` when no valid mantissa starts the list. -/
def parseMantissa (cs : List Char) : Option (ℚ × List Char) :=
  let ip := cs.takeWhile (·.isDigit)
  let r1 := cs.dropWhile (·.isDigit)
  if ip.isEmpty then
    match r1 with
    | '.' :: r2 =>
      let fp := r2.takeWhile (·.isDigit)
      let r3 := r2.dropWhile (·.isDigit)
      if fp.isEmpty then none else some (fracVal fp, r3)
    | _ => none
  else
    match r1 with
    | '.' :: r2 =>
      let fp := r2.takeWhile (·.isDigit)
      let r3 := r2.dropWhile (·.isDigit)
      some ((natOfDigits ip : ℚ) + fracVal fp, r3)
    | _ => some ((natOfDigits ip : ℚ), r1)

/-- Parse an optional exponent part (`e`/`E`, optional sign, digits).
Returns the exponent and the remainder; an incomplete exponent (no digits)
is not consumed at all, matching the longest-valid-prefix rule. -/
def parseExp (cs : List Char) : Int × List Char :=
  match cs with
  | 'e' :: r | 'E' :: r =>
    let sr : Int × List Char :=
      match r with
      | '+' :: r2 => (1, r2)
      | '-' :: r2 => (-1, r2)
      | _ => (1, r)
    let ds := sr.2.takeWhile (·.isDigit)
    let r3 := sr.2.dropWhile (·.isDigit)
    if ds.isEmpty then (0, cs) else (sr.1 * (natOfDigits ds : Int), r3)
  | _ => (0, cs)

/-- `m * 10 ^ e` over ℚ with an integer exponent. -/
def applyExpTen (m : ℚ) (e : Int) : ℚ :=
  if 0 ≤ e then m * (10 : ℚ) ^ e.toNat else m / (10 : ℚ) ^ (- e).toNat

/-- JS `parseFloat`: skip leading whitespace, optional sign, then the longest
decimal-literal prefix; `none` (NaN) when no prefix parses. -/
def parseFloat (s : String) : Option ℚ :=
  let cs := s.data.dropWhile (·.isWhitespace)
  let sc : ℚ × List Char :=
    match cs with
    | '+' :: r => (1, r)
    | '-' :: r => (-1, r)
    | _ => (1, cs)
  match parseMantissa sc.2 with
  | none => none
  | some mr =>
    let er := parseExp mr.2
    some (sc.1 * applyExpTen mr.1 er.1)

/-- Trim whitespace from both ends of a character list (JS `trim`). -/
def jsTrim (cs : List Char) : List Char :=
  ((cs.dropWhile (·.isWhitespace)).reverse.dropWhile (·.isWhitespace)).reverse

/-- JS `Number(string)` coercion on decimal literals: the whole trimmed
string must be a literal; the empty trimmed string is `0`; otherwise NaN. -/
def numberOfString (s : String) : Option ℚ :=
  let t := jsTrim s.data
  if t.isEmpty then some 0
  else
    let sc : ℚ × List Char :=
      match t with
      | '+' :: r => (1, r)
      | '-' :: r => (-1, r)
      | _ => (1, t)
    match parseMantissa sc.2 with
    | none => none
    | some mr =>
      let er := parseExp mr.2
      if er.2.isEmpty then some (sc.1 * applyExpTen mr.1 er.1) else none

/-- JS `Number(value)` coercion on the value shapes of the model. -/
def jsNumber : JSVal → Option ℚ
  | JSVal.undef => none
  | JSVal.null => some 0
  | JSVal.num v => v
  | JSVal.str s => numberOfString s
  | JSVal.bool b => some (if b then 1 else 0)

/-! ## Stock normalizer (`parseStockInfo`, server.js lines 38–55) -/

/-- The `stock_quantity` value after `parseStockInfo` runs on a record:
`Number(original)` when the field is present, else `0`; then overridden to
`1` when the result is `0` and `stock_status === 'instock'`. -/
def stockQtyAfter (p : Product) : Option ℚ :=
  let q1 : Option ℚ :=
    if p.stock_quantity = JSVal.undef then some 0 else jsNumber p.stock_quantity
  if q1 = some 0 ∧ p.stock_status = JSVal.str "instock" then some 1 else q1

/-- `parseStockInfo`: `if (!product) return product;` then normalize
`stock_quantity` as in `stockQtyAfter`, leaving other fields unchanged. -/
def parseStockInfo : ProductInput → ProductInput
  | ProductInput.undef => ProductInput.undef
  | ProductInput.null => ProductInput.null
  | ProductInput.obj p =>
      ProductInput.obj { p with stock_quantity := JSVal.num (stockQtyAfter p) }

/-! ## Cost computation (server.js lines 354–376) -/

/-- JS `s.includes(c)` for a one-character needle. -/
def strContains (s : String) (c : Char) : Bool :=
  s.data.any (fun a => a == c)

/-- Remove the first occurrence of a character from a character list
(JS `String.replace` with a string pattern replaces only the first match). -/
def stripFirstChar : List Char → Char → List Char
  | [], _ => []
  | c :: r, x => if c = x then r else c :: stripFirstChar r x

/-- `s.replace(c, '')` for a one-character pattern: first occurrence only. -/
def stripFirst (s : String) (c : Char) : String :=
  { data := stripFirstChar s.data c }

/-- The handler's cost parsing: `cost = 0` unless `settings.cost.value` is a
truthy string, in which case: a string containing `%` has its first `%`
removed and is `parseFloat`ed as a percentage of the cart total; the sentinel
`min_amount` reads `settings.min_amount.value` (`0` when the key is absent);
anything else is `parseFloat(v) || 0`. `none` models a `NaN` cost. -/
def computeCost (settings : Option Settings) (cartTotal : ℚ) : Option ℚ :=
  match settings with
  | none => some 0
  | some st =>
    match st.cost with
    | none => some 0
    | some cv =>
      let v := cv.value
      if v = "" then some 0
      else if strContains v '%' then
        match parseFloat (stripFirst v '%') with
        | some p => some (cartTotal * p / 100)
        | none => none
      else if v = "min_amount" then
        match st.min_amount with
        | some mv => parseFloat mv.value
        | none => some 0
      else some ((parseFloat v).getD 0)

/-! ## Title and description (server.js lines 356, 378–405) -/

/-- JS `a || b` for an optional string: the string when present and
non-empty, else the default. -/
def strOr (v : Option String) (d : String) : String :=
  match v with
  | none => d
  | some s => if s = "" then d else s

/-- `method.method_title || method.title || 'Shipping'`, overridden by a
truthy `settings.title.value`. -/
def methodTitle (m : Method) : String :=
  let base := strOr m.method_title (strOr m.title ("Shipping"))
  match m.settings with
  | none => base
  | some st =>
    match st.title with
    | none => base
    | some tv => if tv.value = "" then base else tv.value

/-- One left-to-right pass of `replace(/<[^>]*>/g, '')`: outside a tag,
`<` opens a pending tag buffer; a later `>` discards the buffered span; a
pending tag never closed by `>` is kept verbatim (the regex needs a `>`). -/
def stripGo : List Char → Option (List Char) → List Char
  | [], none => []
  | [], some buf => '<' :: buf.reverse
  | c :: rest, none => if c = '<' then stripGo rest (some []) else c :: stripGo rest none
  | c :: rest, some buf =>
      if c = '>' then stripGo rest none else stripGo rest (some (c :: buf))

/-- `s.replace(/<[^>]*>/g, '')`. -/
def stripHtml (s : String) : String :=
  { data := stripGo s.data none }

/-- JS `s.trim()`. -/
def trimStr (s : String) : String :=
  { data := jsTrim s.data }

/-- Is a (possibly NaN) cost strictly positive? (`NaN > 0` is false in JS.) -/
def costPos : Option ℚ → Bool
  | some c => decide (0 < c)
  | none => false

/-- Default description chosen by `method_id` when the cleaned description
is empty or shorter than 5 characters. -/
def defaultDesc (mid : String) (cost : Option ℚ) : String :=
  if mid = "free_shipping" then "Free delivery to your address"
  else if mid = "flat_rate" then
    (if costPos cost then "Fixed rate delivery" else "Standard delivery")
  else if mid = "local_pickup" then "Pick up from our location"
  else "Delivery service"

/-- The cleaned-up description: strip tags and trim `method_description` when
truthy, else `settings.description.value` when truthy, else empty; substitute
the per-type default when the result is empty or shorter than 5 characters. -/
def methodDesc (m : Method) (cost : Option ℚ) : String :=
  let fromSettings : String :=
    match m.settings with
    | none => ""
    | some st =>
      match st.description with
      | none => ""
      | some dv => if dv.value = "" then "" else trimStr (stripHtml dv.value)
  let d0 : String :=
    match m.method_description with
    | none => fromSettings
    | some d => if d = "" then fromSettings else trimStr (stripHtml d)
  if d0 = "" ∨ d0.length < 5 then defaultDesc m.method_id cost else d0

/-- The handler's `enabledMethods.map(...)` body: one `ShippingOption` per
method. -/
def computeOption (cartTotal : ℚ) (m : Method) : ShippingOption :=
  let cost := computeCost m.settings cartTotal
  { id := m.method_id
    instance_id := m.instance_id
    title := methodTitle m
    cost := cost
    description := methodDesc m cost
    enabled := m.enabled }

/-- The full options list for a method list (the pipeline applies this to the
`enabled === true` filtered methods). -/
def computeOptions (ms : List Method) (cartTotal : ℚ) : List ShippingOption :=
  ms.map (computeOption cartTotal)

/-! ## Zone resolution (server.js lines 302–338) -/

/-- `location.code === shipping_address.country` for a present address whose
`country` may be absent (comparison with `undefined` is false). -/
def countryEq (country : Option String) (code : String) : Bool :=
  match country with
  | none => false
  | some c => code == c

/-- Outcome of one iteration of the zone loop's `try` body: `ok true` when a
location matches the destination country, `ok false` when none does, `error`
when the location fetch rejects or when the address is missing and a
`type === 'country'` location forces evaluation of
`shipping_address.country` (a TypeError caught by the same `catch`). -/
def zoneProbe (locFetch : Zone → Except String (List Location)) (addr : Addr)
    (z : Zone) : Except Unit Bool :=
  match locFetch z with
  | Except.error _ => Except.error ()
  | Except.ok locs =>
    match addr with
    | Addr.missing =>
        if locs.any (fun l => l.type == "country") then Except.error ()
        else Except.ok false
    | Addr.mk c =>
        Except.ok (locs.any (fun l => l.type == "country" && countryEq c l.code))

/-- The `for (const zone of zones)` matching loop: first zone whose probe
returns a match; probe failures are skipped (the `catch` only logs). -/
def findLoop (zones : List Zone) (locFetch : Zone → Except String (List Location))
    (addr : Addr) : Option Zone :=
  match zones with
  | [] => none
  | z :: rest =>
    match zoneProbe locFetch addr z with
    | Except.ok true => some z
    | _ => findLoop rest locFetch addr

/-- The catch-all zone name WooCommerce gives the leftover zone. -/
def sentinelName : String := "Locations not covered by your other zones"

/-- The fallback chain when no zone matched:
`zones.find(z => z.name !== sentinel) || zones[0]`. -/
def fallbackZone (zones : List Zone) : Option Zone :=
  match zones.find? (fun z => !(z.name == sentinelName)) with
  | some z => some z
  | none => zones.head?

/-- Zone selection: the matching loop, then the fallback chain; `none` means
`selectedZone` stayed falsy and the handler throws `No shipping zones
available`. -/
def resolveZone (zones : List Zone) (locFetch : Zone → Except String (List Location))
    (addr : Addr) : Option Zone :=
  match findLoop zones locFetch addr with
  | some z => some z
  | none => fallbackZone zones

/-! ## Pipeline (server.js lines 292–434) -/

/-- `cart_items.reduce((total, item) => total + item.price * item.quantity, 0)`. -/
def cartTotal (items : List CartItem) : ℚ :=
  items.foldl (fun t i => t + i.price * i.quantity) 0

/-- The calculate-shipping pipeline after the zone list has been fetched:
resolve a zone (else throw `noZones`), fetch its methods (a rejection
propagates as `upstream`), then reduce the cart total — reached
unconditionally, so a missing/null `cart_items` throws a TypeError
(`cartTypeError`) — and map the enabled methods to options. -/
def calculateShipping (cart : Option (List CartItem)) (addr : Addr)
    (zones : List Zone) (locFetch : Zone → Except String (List Location))
    (methodsFetch : Zone → Except String (List Method)) :
    Except CalcError (List ShippingOption × Zone) :=
  match resolveZone zones locFetch addr with
  | none => Except.error CalcError.noZones
  | some z =>
    match methodsFetch z with
    | Except.error m => Except.error (CalcError.upstream m)
    | Except.ok ms =>
      match cart with
      | none => Except.error CalcError.cartTypeError
      | some items =>
          Except.ok (computeOptions (ms.filter (fun m => m.enabled)) (cartTotal items), z)

/-- The `message` field of the 500 error body: the thrown error's message.
The engine-defined TypeError text for a missing `cart_items` is left
unmodelled (`none`). -/
def errMessageOf : CalcError → Option String
  | CalcError.noZones => some ("No shipping zones available")
  | CalcError.upstream m => some m
  | CalcError.cartTypeError => none

/-- The route handler: a successful pipeline returns the 200 JSON body; any
thrown error is caught and answered with status 500 and
`{error: 'Failed to calculate shipping', message}`. -/
def handleCalculate (cart : Option (List CartItem)) (addr : Addr)
    (zones : List Zone) (locFetch : Zone → Except String (List Location))
    (methodsFetch : Zone → Except String (List Method)) : HttpResponse :=
  match calculateShipping cart addr zones locFetch methodsFetch with
  | Except.ok (opts, z) => HttpResponse.success opts z
  | Except.error e => HttpResponse.failure 500 ("Failed to calculate shipping") (errMessageOf e)

/-! ## Stock normalizer results (C3, C8) -/

/-- Helper: normalizing an already-normalized quantity changes nothing. -/
lemma stockQtyAfter_stable (p : Product) :
    stockQtyAfter { p with stock_quantity := JSVal.num (stockQtyAfter p) }
      = stockQtyAfter p := by
  unfold stockQtyAfter
  simp only [jsNumber, reduceCtorEq, if_false]
  split_ifs with h1 h2 h3 <;> simp_all

/-- C8: `parseStockInfo` (the spec's `normalize`) is idempotent, and a null or
undefined product is returned unchanged. Totality over all modelled inputs
(undefined, null, any quantity value, any status value) holds by
construction: `parseStockInfo` is a total function of `ProductInput`. -/
theorem c8_normalize_idempotent :
    (∀ x : ProductInput, parseStockInfo (parseStockInfo x) = parseStockInfo x)
    ∧ parseStockInfo ProductInput.null = ProductInput.null
    ∧ parseStockInfo ProductInput.undef = ProductInput.undef := by
  refine ⟨?_, rfl, rfl⟩
  intro x
  cases x with
  | undef => rfl
  | null => rfl
  | obj p =>
    simp only [parseStockInfo]
    rw [stockQtyAfter_stable]

/-- The quantity C3 claims `normalize` produces: the numeric coercion of the
original field, with 0 for a missing or non-numeric field, then the
0-and-instock correction to 1. -/
def c3SpecQty (p : Product) : ℚ :=
  let base : ℚ :=
    if p.stock_quantity = JSVal.undef then 0 else (jsNumber p.stock_quantity).getD 0
  if base = 0 ∧ p.stock_status = JSVal.str "instock" then 1 else base

/-- A product whose `stock_quantity` is the non-numeric string `"abc"`. -/
def c3Product : Product :=
  { stock_quantity := JSVal.str ("abc"), stock_status := JSVal.str ("outofstock") }

/-- C3 counterexample: on `stock_quantity: "abc"` the code stores
`Number("abc") = NaN`, not the 0 the claim requires for a non-numeric field —
so the normalized quantity is neither the claimed value nor a non-negative
number. -/
theorem c3_counterexample :
    parseStockInfo (ProductInput.obj c3Product)
      = ProductInput.obj { stock_quantity := JSVal.num none,
                           stock_status := JSVal.str ("outofstock") }
    ∧ JSVal.num (none : Option ℚ) ≠ JSVal.num (some (c3SpecQty c3Product)) := by
  constructor
  · simp +decide [parseStockInfo, stockQtyAfter, jsNumber, numberOfString, jsTrim,
      parseMantissa, parseExp, applyExpTen, natOfDigits, fracVal, c3Product,
      List.takeWhile, List.dropWhile]
  · simp

/-- C3 amended: after `parseStockInfo`, `stock_quantity` is `Number(original)`
(0 when the field is missing), corrected to 1 when that is 0 and
`stock_status` is `"instock"`; it equals the claimed value and is a
non-negative number provided the original field is missing or coerces to a
non-negative number (a non-numeric field yields NaN, not 0, and a negative
coercion stays negative). -/
theorem c3_amended (p : Product)
    (h : p.stock_quantity = JSVal.undef
        ∨ ∃ q : ℚ, jsNumber p.stock_quantity = some q ∧ 0 ≤ q) :
    stockQtyAfter p = some (c3SpecQty p)
    ∧ 0 ≤ c3SpecQty p
    ∧ parseStockInfo (ProductInput.obj p)
        = ProductInput.obj { p with stock_quantity := JSVal.num (some (c3SpecQty p)) } := by
  have hmain : stockQtyAfter p = some (c3SpecQty p) ∧ 0 ≤ c3SpecQty p := by
    unfold stockQtyAfter c3SpecQty
    rcases h with h | ⟨q, hq, hq0⟩
    · simp only [h, if_true]
      by_cases hst : p.stock_status = JSVal.str "instock" <;> simp [hst]
    · have hne : p.stock_quantity ≠ JSVal.undef := by
        intro he
        rw [he] at hq
        simp [jsNumber] at hq
      simp only [hne, if_false, hq, Option.getD_some]
      by_cases hq0eq : q = 0
      · subst hq0eq
        by_cases hst : p.stock_status = JSVal.str "instock" <;> simp [hst]
      · have hc1 : ¬ (some q = some (0 : ℚ) ∧ p.stock_status = JSVal.str "instock") := by
          intro hc
          exact hq0eq (Option.some.inj hc.1)
        have hc2 : ¬ ((q : ℚ) = 0 ∧ p.stock_status = JSVal.str "instock") := by
          intro hc
          exact hq0eq hc.1
        rw [if_neg hc1, if_neg hc2]
        exact ⟨rfl, hq0⟩
  refine ⟨hmain.1, hmain.2, ?_⟩
  simp only [parseStockInfo, hmain.1]

/-- The concrete product of the C3 amended witness: quantity missing, status
`"instock"`. -/
def c3WitnessProduct : Product :=
  { stock_quantity := JSVal.undef, stock_status := JSVal.str ("instock") }

/-- C3 amended, at a concrete input: a missing quantity with status
`"instock"` normalizes to 1. -/
theorem c3_amended_witness :
    stockQtyAfter c3WitnessProduct = some (c3SpecQty c3WitnessProduct)
    ∧ 0 ≤ c3SpecQty c3WitnessProduct
    ∧ parseStockInfo (ProductInput.obj c3WitnessProduct)
        = ProductInput.obj { c3WitnessProduct with
            stock_quantity := JSVal.num (some (c3SpecQty c3WitnessProduct)) } :=
  c3_amended c3WitnessProduct (Or.inl rfl)

/-! ## Cost precedence (C1) -/

/-- The cost rule exactly as C1 words it: a string containing `%` is read as
"the parsed leading numeric percentage" of the string itself (`parseFloat` of
the string, which parses its leading numeric part); the sentinel
`min_amount` reads `settings.min_amount.value`, 0 when absent; anything
else is a flat decimal defaulting to 0; absent cost is 0. -/
def specCostC1 (settings : Option Settings) (cartTotal : ℚ) : Option ℚ :=
  match settings with
  | none => some 0
  | some st =>
    match st.cost with
    | none => some 0
    | some cv =>
      let v := cv.value
      if strContains v '%' then
        match parseFloat v with
        | some p => some (cartTotal * p / 100)
        | none => none
      else if v = "min_amount" then
        match st.min_amount with
        | some mv => parseFloat mv.value
        | none => some 0
      else some ((parseFloat v).getD 0)

/-- C1's percentage branch amended to what the code does: the first `%` is
removed and the remainder is `parseFloat`ed, which is the leading numeric
part of the string with its first `%` removed (not of the string itself). -/
def specCostC1A (settings : Option Settings) (cartTotal : ℚ) : Option ℚ :=
  match settings with
  | none => some 0
  | some st =>
    match st.cost with
    | none => some 0
    | some cv =>
      let v := cv.value
      if strContains v '%' then
        match parseFloat (stripFirst v '%') with
        | some p => some (cartTotal * p / 100)
        | none => none
      else if v = "min_amount" then
        match st.min_amount with
        | some mv => parseFloat mv.value
        | none => some 0
      else some ((parseFloat v).getD 0)

/-- An enabled method whose cost string is `"1%2"`: a digit on each side of
the percent sign. -/
def c1Method : Method :=
  { method_id := "flat_rate"
    method_title := some ("Percent")
    title := none
    instance_id := 1
    enabled := true
    settings := some { cost := some { value := "1%2" }
                       min_amount := none
                       title := none
                       description := none }
    method_description := none }

/-- C1 counterexample: for cost string `"1%2"` and cart total 100 the code
removes the first `%` and parses `"12"` (cost 12), while the claim's "parsed
leading numeric percentage" of the string is 1 (cost 1). -/
theorem c1_counterexample :
    (computeOptions ([c1Method].filter (fun m => m.enabled)) 100).map (fun o => o.cost)
      = [some (12 : ℚ)]
    ∧ [c1Method].map (fun m => specCostC1 m.settings 100) = [some (1 : ℚ)]
    ∧ some (12 : ℚ) ≠ some (1 : ℚ) := by
  refine ⟨?_, ?_, by norm_num⟩
  · simp +decide [computeOptions, computeOption, computeCost, c1Method, strContains,
      stripFirst, stripFirstChar, parseFloat, parseMantissa, parseExp, applyExpTen,
      natOfDigits, fracVal, List.takeWhile, List.dropWhile]
  · simp +decide [specCostC1, c1Method, strContains, parseFloat, parseMantissa,
      parseExp, applyExpTen, natOfDigits, fracVal, List.takeWhile, List.dropWhile]

/-- Helper: the code's cost computation equals the amended C1 rule. -/
lemma computeCost_eq_specA (s : Option Settings) (t : ℚ) :
    computeCost s t = specCostC1A s t := by
  cases s with
  | none => rfl
  | some st =>
    rcases hc : st.cost with _ | cv
    · simp only [computeCost, specCostC1A, hc]
    · rcases cv with ⟨v⟩
      by_cases hv : v = ""
      · subst hv
        simp only [computeCost, specCostC1A, hc]
        simp +decide
      · simp only [computeCost, specCostC1A, hc, if_neg hv]

/-- C1 amended: for every method list and cart total, the emitted costs
follow C1's precedence with the percentage branch reading "parseFloat of the
string with its first `%` removed" instead of "parseFloat of the string". -/
theorem c1_amended :
    ∀ (ms : List Method) (t : ℚ),
      (computeOptions ms t).map (fun o => o.cost)
        = ms.map (fun m => specCostC1A m.settings t) := by
  intro ms t
  induction ms with
  | nil => rfl
  | cons m rest ih =>
    simp only [computeOptions, List.map_cons] at ih ⊢
    rw [ih]
    have hhead : (computeOption t m).cost = specCostC1A m.settings t :=
      computeCost_eq_specA m.settings t
    rw [hhead]

/-! ## Parse-failure recovery (C5) -/

/-- Settings whose cost string `"abc%"` routes to the percentage branch with
an unparseable numeric part. -/
def c5Settings : Settings :=
  { cost := some { value := "abc%" }
    min_amount := none
    title := none
    description := none }

/-- C5 counterexample: an unparseable percentage cost string yields a NaN
cost (`none`), not the 0 the claim requires. -/
theorem c5_counterexample :
    computeCost (some c5Settings) 100 = none
    ∧ computeCost (some c5Settings) 100 ≠ some 0 := by
  constructor
  · simp +decide [computeCost, c5Settings, strContains, stripFirst, stripFirstChar,
      parseFloat, parseMantissa, parseExp, applyExpTen, natOfDigits, fracVal,
      List.takeWhile, List.dropWhile]
  · simp +decide [computeCost, c5Settings, strContains, stripFirst, stripFirstChar,
      parseFloat, parseMantissa, parseExp, applyExpTen, natOfDigits, fracVal,
      List.takeWhile, List.dropWhile]

/-- C5 amended: only the flat-rate branch recovers an unparseable cost string
to 0; the percentage and min_amount branches produce a NaN cost. In every
branch the failure stays local to the cost value — the computation returns a
value rather than an error. -/
theorem c5_amended (st : Settings) (v : String) (t : ℚ)
    (hc : st.cost = some { value := v }) (hv : v ≠ "") :
    (strContains v '%' = true → parseFloat (stripFirst v '%') = none →
        computeCost (some st) t = none)
    ∧ (strContains v '%' = false → v = "min_amount" →
        ∀ mv : Setting, st.min_amount = some mv → parseFloat mv.value = none →
          computeCost (some st) t = none)
    ∧ (strContains v '%' = false → v ≠ "min_amount" → parseFloat v = none →
        computeCost (some st) t = some 0) := by
  refine ⟨?_, ?_, ?_⟩
  · intro h1 h2
    simp only [computeCost, hc, if_neg hv, h1, if_true, h2]
  · intro h1 h2 mv hmv h3
    subst h2
    simp +decide [computeCost, hc, hmv, h3]
  · intro h1 h2 h3
    simp only [computeCost, hc, if_neg hv, h1, Bool.false_eq_true, if_false,
      if_neg h2, h3, Option.getD_none]

/-- Witness settings: flat branch, unparseable. -/
def c5wFlat : Settings :=
  { cost := some { value := "x" }, min_amount := none, title := none, description := none }

/-- Witness settings: percentage branch, unparseable. -/
def c5wPct : Settings :=
  { cost := some { value := "x%" }, min_amount := none, title := none, description := none }

/-- Witness settings: min_amount branch, unparseable min value. -/
def c5wMin : Settings :=
  { cost := some { value := "min_amount" }, min_amount := some { value := "x" },
    title := none, description := none }

/-- C5 amended, at concrete inputs: `"x%"` and an unparseable `min_amount`
give NaN; flat `"x"` gives 0. -/
theorem c5_amended_witness :
    computeCost (some c5wPct) 7 = none
    ∧ computeCost (some c5wMin) 7 = none
    ∧ computeCost (some c5wFlat) 7 = some 0 :=
  ⟨(c5_amended c5wPct "x%" 7 rfl (by decide)).1 (by decide) (by decide),
   (c5_amended c5wMin "min_amount" 7 rfl (by decide)).2.1 (by decide) rfl
     { value := "x" } rfl (by decide),
   (c5_amended c5wFlat "x" 7 rfl (by decide)).2.2 (by decide) (by decide) (by decide)⟩

/-! ## Cost nonnegativity (C7) -/

/-- An enabled flat-rate method configured with the negative cost string
`"-5"`. -/
def c7Method : Method :=
  { method_id := "flat_rate"
    method_title := some ("Flat")
    title := none
    instance_id := 1
    enabled := true
    settings := some { cost := some { value := "-5" }
                       min_amount := none
                       title := none
                       description := none }
    method_description := none }

/-- C7 counterexample: a method configured with cost `"-5"` is emitted with
cost −5, which is not ≥ 0. -/
theorem c7_counterexample :
    (computeOptions ([c7Method].filter (fun m => m.enabled)) 10).map (fun o => o.cost)
      = [some (-5 : ℚ)]
    ∧ ¬ (0 : ℚ) ≤ (-5 : ℚ) := by
  refine ⟨?_, by norm_num⟩
  simp +decide [computeOptions, computeOption, computeCost, c7Method, strContains,
    stripFirst, stripFirstChar, parseFloat, parseMantissa, parseExp, applyExpTen,
    natOfDigits, fracVal, List.takeWhile, List.dropWhile]

/-- The hypothesis C7 needs: every parse the cost computation actually
performs on this settings object yields a non-negative number (and the
percentage/min_amount parses do not fail). Mirrors `computeCost` branch for
branch. -/
def nonnegCostB (s : Option Settings) : Bool :=
  match s with
  | none => true
  | some st =>
    match st.cost with
    | none => true
    | some cv =>
      let v := cv.value
      if v = "" then true
      else if strContains v '%' then
        match parseFloat (stripFirst v '%') with
        | some q => decide (0 ≤ q)
        | none => false
      else if v = "min_amount" then
        match st.min_amount with
        | none => true
        | some mv =>
          match parseFloat mv.value with
          | some q => decide (0 ≤ q)
          | none => false
      else
        match parseFloat v with
        | some q => decide (0 ≤ q)
        | none => true

/-- Is an emitted option's cost a non-negative number? (A NaN cost fails.) -/
def costNonneg (o : ShippingOption) : Bool :=
  match o.cost with
  | some c => decide (0 ≤ c)
  | none => false

/-- Helper: under `nonnegCostB` and a non-negative cart total, the computed
cost is a non-negative number. -/
lemma computeCost_nonneg (s : Option Settings) (t : ℚ) (ht : 0 ≤ t)
    (hs : nonnegCostB s = true) :
    ∃ c, computeCost s t = some c ∧ 0 ≤ c := by
  cases s with
  | none => exact ⟨0, rfl, le_refl 0⟩
  | some st =>
    rcases hc : st.cost with _ | cv
    · refine ⟨0, ?_, le_refl 0⟩
      simp only [computeCost, hc]
    · rcases cv with ⟨v⟩
      simp only [nonnegCostB, hc] at hs
      simp only [computeCost, hc]
      by_cases hv : v = ""
      · rw [if_pos hv]
        exact ⟨0, rfl, le_refl 0⟩
      · rw [if_neg hv] at hs ⊢
        by_cases hp : strContains v '%' = true
        · rw [if_pos hp] at hs ⊢
          rcases hpf : parseFloat (stripFirst v '%') with _ | q
          · rw [hpf] at hs
            simp at hs
          · rw [hpf] at hs
            have hq : (0 : ℚ) ≤ q := by simpa using hs
            exact ⟨t * q / 100, rfl, by positivity⟩
        · rw [if_neg hp] at hs ⊢
          by_cases hm : v = "min_amount"
          · rw [if_pos hm] at hs ⊢
            rcases hma : st.min_amount with _ | mv
            · exact ⟨0, rfl, le_refl 0⟩
            · have hs2 : (match parseFloat mv.value with
                  | some q => decide (0 ≤ q)
                  | none => false) = true := by
                rw [hma] at hs
                exact hs
              rcases hpf : parseFloat mv.value with _ | q
              · rw [hpf] at hs2
                simp at hs2
              · rw [hpf] at hs2
                exact ⟨q, hpf, by simpa using hs2⟩
          · rw [if_neg hm] at hs ⊢
            rcases hpf : parseFloat v with _ | q
            · exact ⟨0, rfl, le_refl 0⟩
            · rw [hpf] at hs
              exact ⟨q, rfl, by simpa using hs⟩

/-- C7 amended: every option the pipeline emits has a cost that is a number
≥ 0, provided the cart total is ≥ 0 and every parse the cost computation
performs on the configured strings yields a non-negative number — without
that proviso the cost can be negative (counterexample: flat `"-5"`) or NaN
(unparseable percentage/min_amount strings). -/
theorem c7_amended (ms : List Method) (t : ℚ) (ht : 0 ≤ t)
    (hs : ∀ m ∈ ms, nonnegCostB m.settings = true) :
    (computeOptions (ms.filter (fun m => m.enabled)) t).all costNonneg = true := by
  rw [List.all_eq_true]
  intro o ho
  unfold computeOptions at ho
  obtain ⟨m, hm, hoe⟩ := List.mem_map.mp ho
  have hm2 : m ∈ ms := (List.mem_filter.mp hm).1
  obtain ⟨c, hcc, hc0⟩ := computeCost_nonneg m.settings t ht (hs m hm2)
  have hcost : o.cost = some c := by
    rw [← hoe]
    exact hcc
  unfold costNonneg
  rw [hcost]
  exact decide_eq_true hc0

/-- Witness method for the amended C7: enabled flat rate `"5.50"`. -/
def c7wMethod : Method :=
  { method_id := "flat_rate"
    method_title := some ("Flat")
    title := none
    instance_id := 1
    enabled := true
    settings := some { cost := some { value := "5.50" }
                       min_amount := none
                       title := none
                       description := none }
    method_description := none }

/-- C7 amended, at a concrete input: a cart total of 10 and one enabled
method at flat `"5.50"` yield only non-negative costs. -/
theorem c7_amended_witness :
    (computeOptions ([c7wMethod].filter (fun m => m.enabled)) 10).all costNonneg = true :=
  c7_amended [c7wMethod] 10 (by norm_num)
    (by
      intro m hm
      simp only [List.mem_singleton] at hm
      subst hm
      simp +decide [nonnegCostB, c7wMethod, strContains, stripFirst, stripFirstChar,
        parseFloat, parseMantissa, parseExp, applyExpTen, natOfDigits, fracVal,
        List.takeWhile, List.dropWhile, decide_eq_true_eq]
      norm_num)

/-! ## Zone resolution results (C2, C6, C9) and pipeline results (C4, C10) -/

/-- The collaborator in which every per-zone location call succeeds and
delivers the zone's own location list. -/
def fetchEmbedded : Zone → Except String (List Location) :=
  fun z => Except.ok z.locations

/-- C2's matching rule: the zone has at least one location with
`type == "country"` and `code` equal to the destination country. -/
def zoneMatches (z : Zone) (c : String) : Bool :=
  z.locations.any (fun l => l.type == "country" && l.code == c)

/-- The resolver exactly as C2 words it: the first matching zone, else the
first zone whose name is not the catch-all sentinel, else the first zone. -/
def specResolve (zs : List Zone) (c : String) : Option Zone :=
  match zs.find? (fun z => zoneMatches z c) with
  | some z => some z
  | none =>
    match zs.find? (fun z => !(z.name == sentinelName)) with
    | some z => some z
    | none => zs.head?

/-- Helper: with all location fetches succeeding and a present country, the
matching loop is `find?` over the C2 matching rule. -/
lemma findLoop_eq_find (zs : List Zone) (c : String) :
    findLoop zs fetchEmbedded (Addr.mk (some c))
      = zs.find? (fun z => zoneMatches z c) := by
  induction zs with
  | nil => rfl
  | cons z rest ih =>
    have hp : zoneProbe fetchEmbedded (Addr.mk (some c)) z
        = Except.ok (zoneMatches z c) := rfl
    cases hz : zoneMatches z c
    · simp only [findLoop, hp, hz, ih, List.find?]
    · simp only [findLoop, hp, hz, List.find?]

/-- C2: for every non-empty zone list (all location fetches succeeding) and
every destination country, the resolver follows exactly the three-tier rule
of the claim, and it does return a zone. -/
theorem c2_zone_resolution (zs : List Zone) (c : String) (h : zs ≠ []) :
    resolveZone zs fetchEmbedded (Addr.mk (some c)) = specResolve zs c
    ∧ (specResolve zs c).isSome = true := by
  constructor
  · unfold resolveZone specResolve fallbackZone
    rw [findLoop_eq_find]
  · unfold specResolve
    rcases h1 : zs.find? (fun z => zoneMatches z c) with _ | z
    · rcases h2 : zs.find? (fun z => !(z.name == sentinelName)) with _ | z
      · simp only [h2]
        cases zs with
        | nil => exact absurd rfl h
        | cons a rest => rfl
      · simp [h2]
    · rfl

/-- Zones for the C2 witness: a country zone for DE and a rest zone. -/
def c2wZones : List Zone :=
  [ { id := 1, name := "EU", locations := [ { type := "country", code := "DE" } ] },
    { id := 2, name := "Rest of World", locations := [] } ]

/-- C2 at a concrete input: two zones and destination DE. -/
theorem c2_zone_resolution_witness :
    resolveZone c2wZones fetchEmbedded (Addr.mk (some ("DE"))) = specResolve c2wZones ("DE")
    ∧ (specResolve c2wZones ("DE")).isSome = true :=
  c2_zone_resolution c2wZones ("DE") (by decide)

/-- Helper: the fallback chain returns a zone whenever the list is
non-empty. -/
lemma fallbackZone_isSome (zs : List Zone) (h : zs ≠ []) :
    (fallbackZone zs).isSome = true := by
  unfold fallbackZone
  rcases h2 : zs.find? (fun z => !(z.name == sentinelName)) with _ | z
  · simp only [h2]
    cases zs with
    | nil => exact absurd rfl h
    | cons a rest => rfl
  · simp [h2]

/-- Helper: the whole zone selection returns a zone whenever the list is
non-empty, whatever the fetches and the address do. -/
lemma resolveZone_isSome (zs : List Zone) (f : Zone → Except String (List Location))
    (a : Addr) (h : zs ≠ []) : (resolveZone zs f a).isSome = true := by
  unfold resolveZone
  rcases hf : findLoop zs f a with _ | z
  · exact fallbackZone_isSome zs h
  · rfl

/-- C6: a zone whose location fetch fails is skipped and the loop continues
with the remaining zones in order — the matching loop behaves as if the
failing zone were not in the list — and zone selection still returns a zone
(the pipeline does not fail because of the per-zone failure). -/
theorem c6_zone_skip (pre post : List Zone) (zbad : Zone) (msg : String)
    (locFetch : Zone → Except String (List Location)) (addr : Addr)
    (h : locFetch zbad = Except.error msg) :
    findLoop (pre ++ zbad :: post) locFetch addr = findLoop (pre ++ post) locFetch addr
    ∧ (resolveZone (pre ++ zbad :: post) locFetch addr).isSome = true := by
  constructor
  · induction pre with
    | nil =>
      simp only [List.nil_append, findLoop, zoneProbe, h]
    | cons z rest ih =>
      simp only [List.cons_append, findLoop]
      rcases hp : zoneProbe locFetch addr z with u | b
      · exact ih
      · cases b
        · exact ih
        · rfl
  · apply resolveZone_isSome
    simp

/-- A concrete failing-fetch collaborator and zones for the C6 witness. -/
def c6wBad : Zone := { id := 9, name := "Broken", locations := [] }

/-- The good zone next to the failing one in the C6 witness. -/
def c6wGood : Zone :=
  { id := 1, name := "EU", locations := [ { type := "country", code := "DE" } ] }

/-- The C6 witness collaborator: the fetch rejects exactly for zone id 9. -/
def c6wFetch : Zone → Except String (List Location) :=
  fun z => if z.id = 9 then Except.error ("network error") else Except.ok z.locations

/-- C6 at a concrete input: the failing zone heads the list and the loop
continues to the matching zone behind it. -/
theorem c6_zone_skip_witness :
    findLoop ([] ++ c6wBad :: [c6wGood]) c6wFetch (Addr.mk (some ("DE")))
      = findLoop ([] ++ [c6wGood]) c6wFetch (Addr.mk (some ("DE")))
    ∧ (resolveZone ([] ++ c6wBad :: [c6wGood]) c6wFetch (Addr.mk (some ("DE")))).isSome = true :=
  c6_zone_skip [] [c6wGood] c6wBad ("network error") c6wFetch (Addr.mk (some ("DE"))) rfl

/-- Helper: with a missing address or an address without a country, the
matching loop never selects a zone: a present-but-countryless address never
compares equal to a location code, and a missing address throws inside the
`find` callback, which the per-zone `catch` turns into a skip. -/
lemma findLoop_no_country (zs : List Zone) (f : Zone → Except String (List Location))
    (addr : Addr) (h : addr = Addr.missing ∨ addr = Addr.mk none) :
    findLoop zs f addr = none := by
  have hne : ∀ z : Zone, zoneProbe f addr z ≠ Except.ok true := by
    intro z
    unfold zoneProbe
    rcases f z with u | locs
    · rcases h with h | h <;> subst h <;> simp
    · rcases h with h | h <;> subst h
      · by_cases hany : locs.any (fun l => l.type == "country") = true
        · simp [hany]
        · simp [hany]
      · have hfalse : locs.any (fun l => l.type == "country" && countryEq none l.code)
            = false := by
          rw [List.any_eq_false]
          intro l hl
          simp [countryEq]
        simp [hfalse]
  induction zs with
  | nil => rfl
  | cons z rest ih =>
    simp only [findLoop]
    rcases hp : zoneProbe f addr z with u | b
    · exact ih
    · cases b
      · exact ih
      · exact absurd hp (hne z)

/-- C9: with a non-empty zone list, a missing shipping address or one
without a destination country resolves through the fallback chain (first
non-sentinel-named zone, else first zone) and the pipeline still returns
shipping options rather than a validation error, provided the chosen zone's
method fetch succeeds and the cart is present. -/
theorem c9_fallback_missing_country (zs : List Zone) (fz : Zone) (ms : List Method)
    (items : List CartItem) (addr : Addr)
    (locFetch : Zone → Except String (List Location))
    (methodsFetch : Zone → Except String (List Method))
    (ha : addr = Addr.missing ∨ addr = Addr.mk none)
    (hfz : fallbackZone zs = some fz)
    (hms : methodsFetch fz = Except.ok ms) :
    calculateShipping (some items) addr zs locFetch methodsFetch
      = Except.ok (computeOptions (ms.filter (fun m => m.enabled)) (cartTotal items), fz)
    ∧ handleCalculate (some items) addr zs locFetch methodsFetch
      = HttpResponse.success
          (computeOptions (ms.filter (fun m => m.enabled)) (cartTotal items)) fz := by
  have hres : resolveZone zs locFetch addr = some fz := by
    unfold resolveZone
    rw [findLoop_no_country zs locFetch addr ha]
    exact hfz
  have hcalc : calculateShipping (some items) addr zs locFetch methodsFetch
      = Except.ok (computeOptions (ms.filter (fun m => m.enabled)) (cartTotal items), fz) := by
    simp only [calculateShipping, hres, hms]
  refine ⟨hcalc, ?_⟩
  simp only [handleCalculate, hcalc]

/-- The single (non-matching, non-sentinel) zone of the C9 witness. -/
def c9wZone : Zone := { id := 3, name := "EU", locations := [] }

/-- C9 at a concrete input: missing address, one zone, methods fetch
succeeding with no methods. -/
theorem c9_fallback_witness :
    calculateShipping (some []) Addr.missing [c9wZone] fetchEmbedded
        (fun _ => Except.ok ([] : List Method))
      = Except.ok (computeOptions (([] : List Method).filter (fun m => m.enabled))
          (cartTotal []), c9wZone)
    ∧ handleCalculate (some []) Addr.missing [c9wZone] fetchEmbedded
        (fun _ => Except.ok ([] : List Method))
      = HttpResponse.success
          (computeOptions (([] : List Method).filter (fun m => m.enabled)) (cartTotal []))
          c9wZone :=
  c9_fallback_missing_country [c9wZone] c9wZone [] [] Addr.missing fetchEmbedded
    (fun _ => Except.ok ([] : List Method)) (Or.inl rfl) (by decide) rfl

/-- C4: an empty zone list makes the pipeline fail with the no-zones error,
answered as the structured 500 response (never a 200 success), for every
cart, address and collaborator. -/
theorem c4_empty_zone_list (cart : Option (List CartItem)) (addr : Addr)
    (locFetch : Zone → Except String (List Location))
    (methodsFetch : Zone → Except String (List Method)) :
    calculateShipping cart addr [] locFetch methodsFetch
      = Except.error CalcError.noZones
    ∧ handleCalculate cart addr [] locFetch methodsFetch
      = HttpResponse.failure 500 ("Failed to calculate shipping")
          (some ("No shipping zones available")) := by
  constructor <;> rfl

/-- C10: with `cart_items` missing or null, the pipeline aborts with the
cart TypeError and the handler answers the structured 500 response, even
though a zone was selected and its methods fetch succeeded. -/
theorem c10_missing_cart_items (zs : List Zone) (z : Zone) (ms : List Method)
    (addr : Addr) (locFetch : Zone → Except String (List Location))
    (methodsFetch : Zone → Except String (List Method))
    (hz : resolveZone zs locFetch addr = some z)
    (hm : methodsFetch z = Except.ok ms) :
    calculateShipping none addr zs locFetch methodsFetch
      = Except.error CalcError.cartTypeError
    ∧ handleCalculate none addr zs locFetch methodsFetch
      = HttpResponse.failure 500 ("Failed to calculate shipping") none := by
  have h1 : calculateShipping none addr zs locFetch methodsFetch
      = Except.error CalcError.cartTypeError := by
    simp only [calculateShipping, hz, hm]
  refine ⟨h1, ?_⟩
  simp only [handleCalculate, h1]
  rfl

/-- The single zone of the C10 witness. -/
def c10wZone : Zone := { id := 1, name := "EU", locations := [] }

/-- C10 at a concrete input: zone selected by fallback, methods fetch
succeeding, cart.items absent. -/
theorem c10_missing_cart_witness :
    calculateShipping none (Addr.mk (some ("DE"))) [c10wZone] fetchEmbedded
        (fun _ => Except.ok ([] : List Method))
      = Except.error CalcError.cartTypeError
    ∧ handleCalculate none (Addr.mk (some ("DE"))) [c10wZone] fetchEmbedded
        (fun _ => Except.ok ([] : List Method))
      = HttpResponse.failure 500 ("Failed to calculate shipping") none :=
  c10_missing_cart_items [c10wZone] c10wZone [] (Addr.mk (some ("DE"))) fetchEmbedded
    (fun _ => Except.ok ([] : List Method)) (by decide) rfl
